import Mathlib

/-!
Verification of `compressed_visualization_transport/occupancy_grid.py`:
conversion between ROS occupancy grids and raster images, resolution
scaling, and the compression pipeline.

Modelling conventions:
* Python ints are `ℤ`, Python floats are `ℚ` (exact arithmetic), Python
  `int()` truncation toward zero is `pyInt`.
* The PIL raster primitive is external: `Image.fromstring` is modelled by
  `imageFromBytes` (bytes grouped into native pixel values per format),
  `Image.resize` and the bitmap compressor `fill_compressed_bitmap` are
  opaque collaborators passed as function parameters, constrained only by
  the contract hypotheses of the theorems that need them.
* Generators (`yield` loops) become structurally recursive list functions.
-/

namespace CompressedVisualizationTransport

/-- ROS time stamp (secs/nsecs), carried through unchanged by the code. -/
structure Time where
  secs : ℤ
  nsecs : ℤ
deriving DecidableEq

/-- ROS std_msgs/Header, carried through unchanged by the code. -/
structure Header where
  seq : ℕ
  stamp : Time
  frame_id : String
deriving DecidableEq

/-- ROS geometry_msgs/Pose, carried through unchanged by the code. -/
structure Pose where
  position_x : ℚ
  position_y : ℚ
  position_z : ℚ
  orientation_x : ℚ
  orientation_y : ℚ
  orientation_z : ℚ
  orientation_w : ℚ
deriving DecidableEq

/-- nav_msgs/MapMetaData as used by the module. -/
structure MapMetaData where
  map_load_time : Time
  resolution : ℚ
  width : ℤ
  height : ℤ
  origin : Pose
deriving DecidableEq

/-- nav_msgs/OccupancyGrid as used by the module. -/
structure OccupancyGrid where
  header : Header
  info : MapMetaData
  data : List ℤ
deriving DecidableEq

/-- A PIL image: pixel format tag, size, and the native pixel values in
row-major order (what `Image.getdata()` yields). -/
structure Raster where
  format : String
  width : ℤ
  height : ℤ
  data : List ℤ
deriving DecidableEq

/-- compressed_visualization_transport_msgs/CompressedBitmap. The payload
fields (`format`, `data`) are filled by the external compressor. -/
structure CompressedBitmap where
  header : Header
  origin : Pose
  resolution_x : ℚ
  resolution_y : ℚ
  format : String
  data : List ℤ
deriving DecidableEq

/-- Zero-initialized `Time` (message default constructor). -/
def Time.init : Time := ⟨0, 0⟩

/-- Zero-initialized `Header` (message default constructor). -/
def Header.init : Header := ⟨0, Time.init, ""⟩

/-- Zero-initialized `Pose` (message default constructor). -/
def Pose.init : Pose := ⟨0, 0, 0, 0, 0, 0, 0⟩

/-- Zero-initialized `CompressedBitmap` (message default constructor,
`CompressedBitmap()` in the source). -/
def CompressedBitmap.init : CompressedBitmap :=
  ⟨Header.init, Pose.init, 0, 0, "", []⟩

/-- A pixel encoding: the raster library's native pixel `value`, its raw
byte encoding `byte_value`, and the pixel format tag. -/
structure PixelColor where
  value : ℤ
  byte_value : List ℤ
  format : String
deriving DecidableEq

/-- `GrayColor.__init__`: value is the intensity, `byte_value = chr(value)`
is the single byte, format is 8-bit grayscale "L". -/
def GrayColor (value : ℤ) : PixelColor :=
  { value := value, byte_value := [value], format := "L" }

/-- `RGBAColor.__init__`: `value = alpha << 24 | red << 16 | green << 8 |
blue`; `byte_value` packs `value` little-endian into four bytes
(`bytes[i] = value >> (i*8) & 0xff`); format is "RGBA". -/
def RGBAColor (red green blue alpha : ℕ) : PixelColor :=
  let v : ℕ := (alpha <<< 24) ||| (red <<< 16) ||| (green <<< 8) ||| blue
  { value := (v : ℤ),
    byte_value := (List.range 4).map fun i => (((v >>> (i * 8)) &&& 255 : ℕ) : ℤ),
    format := "RGBA" }

def _DEFAULT_COLOR_UNKNOWN : ℤ := 128
def _DEFAULT_COLOR_OCCUPIED : ℤ := 0
def _DEFAULT_COLOR_FREE : ℤ := 1

/-- Color specification used when converting between an occupancy grid and
a bitmap: one pixel encoding per occupancy class plus the shared format. -/
structure ColorConfiguration where
  color_occupied : PixelColor
  color_free : PixelColor
  color_unknown : PixelColor
  format : String
deriving DecidableEq

/-- The configuration produced by `ColorConfiguration()` with no
arguments: all three defaults are grayscale. -/
def ColorConfiguration.default : ColorConfiguration :=
  { color_occupied := GrayColor _DEFAULT_COLOR_OCCUPIED
    color_free := GrayColor _DEFAULT_COLOR_FREE
    color_unknown := GrayColor _DEFAULT_COLOR_UNKNOWN
    format := "L" }

/-- `ColorConfiguration.__init__`: each omitted color falls back to its
grayscale default; raises (`Except.error`) when the three formats are not
all equal (Python's chained `==` comparison); on success stores the three
colors and the shared format. -/
def mkColorConfiguration (color_occupied color_free color_unknown : Option PixelColor) :
    Except String ColorConfiguration :=
  let color_occupied := color_occupied.getD (GrayColor _DEFAULT_COLOR_OCCUPIED)
  let color_free := color_free.getD (GrayColor _DEFAULT_COLOR_FREE)
  let color_unknown := color_unknown.getD (GrayColor _DEFAULT_COLOR_UNKNOWN)
  if color_occupied.format = color_free.format ∧ color_free.format = color_unknown.format then
    Except.ok { color_occupied := color_occupied, color_free := color_free,
                color_unknown := color_unknown, format := color_occupied.format }
  else
    Except.error "All colors need to have the same format."

/-- `_occupancy_to_bytes`: generator yielding, per cell value, the unknown
byte encoding for `-1`, the free byte encoding for `0`, and the occupied
byte encoding otherwise. -/
def _occupancy_to_bytes (color_configuration : ColorConfiguration) :
    List ℤ → List (List ℤ)
  | [] => []
  | value :: rest =>
      (if value = -1 then color_configuration.color_unknown.byte_value
       else if value = 0 then color_configuration.color_free.byte_value
       else color_configuration.color_occupied.byte_value) ::
        _occupancy_to_bytes color_configuration rest

/-- `_bytes_to_occupancy`: generator yielding, per native pixel value,
`-1` when it equals the unknown value, `0` when it equals the free value,
and `100` otherwise. -/
def _bytes_to_occupancy (color_configuration : ColorConfiguration) :
    List ℤ → List ℤ
  | [] => []
  | value :: rest =>
      (if value = color_configuration.color_unknown.value then -1
       else if value = color_configuration.color_free.value then 0
       else (100 : ℤ)) ::
        _bytes_to_occupancy color_configuration rest

/-- Python `int()` applied to a rational: truncation toward zero. -/
def pyInt (q : ℚ) : ℤ := if q < 0 then ⌈q⌉ else ⌊q⌋

/-- `_calculate_scaled_size`: scales both dimensions by
`old_resolution / new_resolution` and truncates each with `int()`. -/
def _calculate_scaled_size (size : ℤ × ℤ) (old_resolution new_resolution : ℚ) :
    ℤ × ℤ :=
  let width := size.1
  let height := size.2
  let scaling_factor := old_resolution / new_resolution
  (pyInt ((width : ℚ) * scaling_factor), pyInt ((height : ℚ) * scaling_factor))

/-- `_make_scaled_map_metadata`: recomputes width/height with
`_calculate_scaled_size`, sets the new resolution, and copies
`map_load_time` and `origin` unchanged. -/
def _make_scaled_map_metadata (metadata : MapMetaData) (resolution : ℚ) :
    MapMetaData :=
  let wh := _calculate_scaled_size (metadata.width, metadata.height)
    metadata.resolution resolution
  { map_load_time := metadata.map_load_time
    resolution := resolution
    width := wh.1
    height := wh.2
    origin := metadata.origin }

/-- `calculate_resolution`: resolution implied by fitting the width and by
fitting the height (`current_dim / goal_dim * current_resolution` each),
returning the maximum of the two. -/
def calculate_resolution (goal_size current_size : ℤ × ℤ)
    (current_resolution : ℚ) : ℚ :=
  let goal_width := goal_size.1
  let goal_height := goal_size.2
  let current_width := current_size.1
  let current_height := current_size.2
  let width_resolution := (current_width : ℚ) / (goal_width : ℚ) * current_resolution
  let height_resolution := (current_height : ℚ) / (goal_height : ℚ) * current_resolution
  max width_resolution height_resolution

/-- Model of PIL parsing a 4-byte-per-pixel "RGBA" byte stream into native
pixel values (little-endian packing, inverse of `RGBAColor._encode`). -/
def rgbaFromBytes : List ℤ → List ℤ
  | b0 :: b1 :: b2 :: b3 :: rest =>
      (b0 + b1 * 2 ^ 8 + b2 * 2 ^ 16 + b3 * 2 ^ 24) :: rgbaFromBytes rest
  | _ => []

/-- Model of `Image.fromstring(format, size, bytes)`: groups the raw bytes
into native pixel values according to the format ("L": one byte per pixel,
the byte is the value; "RGBA": four bytes per pixel, little-endian). -/
def imageFromBytes (format : String) (size : ℤ × ℤ) (bytes : List ℤ) : Raster :=
  { format := format
    width := size.1
    height := size.2
    data := if format = "RGBA" then rgbaFromBytes bytes else bytes }

/-- `occupancy_grid_to_image`: defaults the configuration when absent,
streams `_occupancy_to_bytes` of the grid data into a byte buffer and
builds the raster from it at the grid's width × height. -/
def occupancy_grid_to_image (occupancy_grid : OccupancyGrid)
    (color_configuration : Option ColorConfiguration) : Raster :=
  let c := color_configuration.getD ColorConfiguration.default
  imageFromBytes c.format (occupancy_grid.info.width, occupancy_grid.info.height)
    (_occupancy_to_bytes c occupancy_grid.data).flatten

/-- `image_to_occupancy_grid_data`: after the `None` default is resolved,
the source unconditionally reassigns `color_configuration =
ColorConfiguration()` (line 137), so the passed configuration is discarded
and `_bytes_to_occupancy` always runs against the default configuration on
the raster's native pixel values. -/
def image_to_occupancy_grid_data (image : Raster)
    (color_configuration : Option ColorConfiguration) : List ℤ :=
  let _c := color_configuration.getD ColorConfiguration.default
  let c := ColorConfiguration.default
  _bytes_to_occupancy c image.data

/-- `scale_occupancy_grid`: decode the grid to a raster, compute the
scaled size, resize via the external raster primitive (`resize` parameter),
rebuild metadata, and re-encode the resized raster. Note the source calls
`image_to_occupancy_grid_data(resized_image)` with no configuration. -/
def scale_occupancy_grid (resize : Raster → ℤ × ℤ → Raster)
    (occupancy_grid : OccupancyGrid) (resolution : ℚ)
    (color_configuration : Option ColorConfiguration) : OccupancyGrid :=
  let image := occupancy_grid_to_image occupancy_grid color_configuration
  let new_size := _calculate_scaled_size
    (occupancy_grid.info.width, occupancy_grid.info.height)
    occupancy_grid.info.resolution resolution
  let resized_image := resize image new_size
  { header := occupancy_grid.header
    info := _make_scaled_map_metadata occupancy_grid.info resolution
    data := image_to_occupancy_grid_data resized_image none }

/-- `compress_occupancy_grid`: decode, compute the scaled size, resize via
the external raster primitive, then hand the resized raster to the external
compressor (`fill` parameter, `compressed_bitmap.fill_compressed_bitmap` in
the source) after setting header, origin and both resolutions. -/
def compress_occupancy_grid (resize : Raster → ℤ × ℤ → Raster)
    (fill : Raster → String → CompressedBitmap → CompressedBitmap)
    (occupancy_grid : OccupancyGrid) (resolution : ℚ) (format : String)
    (color_configuration : Option ColorConfiguration) : CompressedBitmap :=
  let image := occupancy_grid_to_image occupancy_grid color_configuration
  let new_size := _calculate_scaled_size
    (occupancy_grid.info.width, occupancy_grid.info.height)
    occupancy_grid.info.resolution resolution
  let resized_image := resize image new_size
  let result : CompressedBitmap :=
    { CompressedBitmap.init with
      header := occupancy_grid.header
      origin := occupancy_grid.info.origin
      resolution_x := resolution
      resolution_y := resolution }
  fill resized_image format result

/-! ### Helper lemmas -/

/-- Lemma: `_bytes_to_occupancy` yields one cell per input pixel. -/
theorem _bytes_to_occupancy_length (c : ColorConfiguration) (data : List ℤ) :
    (_bytes_to_occupancy c data).length = data.length := by
  induction data with
  | nil => rfl
  | cons v rest ih => simp [_bytes_to_occupancy, ih]

/-- Lemma: `_occupancy_to_bytes` yields one byte encoding per input cell. -/
theorem _occupancy_to_bytes_length (c : ColorConfiguration) (data : List ℤ) :
    (_occupancy_to_bytes c data).length = data.length := by
  induction data with
  | nil => rfl
  | cons v rest ih => simp [_occupancy_to_bytes, ih]

/-- Lemma: `pyInt` agrees with the floor on nonnegative arguments. -/
theorem pyInt_of_nonneg {q : ℚ} (h : 0 ≤ q) : pyInt q = ⌊q⌋ := by
  unfold pyInt
  rw [if_neg (not_lt.2 h)]

/-- Lemma: `pyInt` is nonnegative on nonnegative arguments. -/
theorem pyInt_nonneg {q : ℚ} (h : 0 ≤ q) : 0 ≤ pyInt q := by
  rw [pyInt_of_nonneg h]
  exact Int.floor_nonneg.2 h

/-- Both components of `_calculate_scaled_size` are nonnegative when the
size is nonnegative and both resolutions are positive. -/
theorem _calculate_scaled_size_nonneg {w h : ℤ} {ro rn : ℚ}
    (hro : 0 < ro) (hrn : 0 < rn) (hw : 0 ≤ w) (hh : 0 ≤ h) :
    0 ≤ (_calculate_scaled_size (w, h) ro rn).1 ∧
    0 ≤ (_calculate_scaled_size (w, h) ro rn).2 := by
  have hf : (0 : ℚ) ≤ ro / rn := (div_pos hro hrn).le
  constructor <;>
    exact pyInt_nonneg (mul_nonneg (by exact_mod_cast ‹_›) hf)

/-! ### Claim theorems -/

/-- C2: `calculate_resolution` returns the larger of the two candidate
resolutions `current_resolution * current_width / goal_width` and
`current_resolution * current_height / goal_height`; in particular at goal
size (50,100), current size (100,100) and current resolution 1/10 it
returns 1/5. -/
theorem calculate_resolution_is_max :
    (∀ goal_size current_size : ℤ × ℤ, ∀ current_resolution : ℚ,
      calculate_resolution goal_size current_size current_resolution =
        max (current_resolution * (current_size.1 : ℚ) / (goal_size.1 : ℚ))
            (current_resolution * (current_size.2 : ℚ) / (goal_size.2 : ℚ))) ∧
    calculate_resolution (50, 100) (100, 100) (1/10) = 1/5 := by
  constructor
  · intro gs cs r
    simp only [calculate_resolution]
    rw [show ((cs.1 : ℚ) / (gs.1 : ℚ) * r) = r * (cs.1 : ℚ) / (gs.1 : ℚ) by ring,
        show ((cs.2 : ℚ) / (gs.2 : ℚ) * r) = r * (cs.2 : ℚ) / (gs.2 : ℚ) by ring]
  · simp only [calculate_resolution]
    norm_num

/-- C3: for a nonnegative size and positive resolutions,
`_calculate_scaled_size` returns the componentwise floor of
`dimension * old_resolution / new_resolution` (truncation, not
rounding). -/
theorem _calculate_scaled_size_floor (w h : ℤ) (r_old r_new : ℚ)
    (hro : 0 < r_old) (hrn : 0 < r_new) (hw : 0 ≤ w) (hh : 0 ≤ h) :
    _calculate_scaled_size (w, h) r_old r_new =
      (⌊(w : ℚ) * r_old / r_new⌋, ⌊(h : ℚ) * r_old / r_new⌋) := by
  have hf : (0 : ℚ) ≤ r_old / r_new := (div_pos hro hrn).le
  simp only [_calculate_scaled_size]
  rw [pyInt_of_nonneg (mul_nonneg (by exact_mod_cast hw) hf),
      pyInt_of_nonneg (mul_nonneg (by exact_mod_cast hh) hf),
      mul_div_assoc, mul_div_assoc]

/-- C3 witness: `_calculate_scaled_size ((101,101), 1/10, 1/5) = (50,50)`
(it floors 50.5 down to 50 rather than rounding up). -/
theorem _calculate_scaled_size_floor_witness :
    _calculate_scaled_size (101, 101) (1/10) (1/5) = (50, 50) := by
  rw [_calculate_scaled_size_floor 101 101 (1/10) (1/5)
    (by norm_num) (by norm_num) (by norm_num) (by norm_num)]
  norm_num

/-- C4: `_bytes_to_occupancy` preserves the length and maps every pixel
value to `-1` when it equals the configured unknown value, to `0` when it
equals the configured free value, and to `100` otherwise — regardless of
the configured occupied value. -/
theorem _bytes_to_occupancy_pixelwise (c : ColorConfiguration) (data : List ℤ) :
    (_bytes_to_occupancy c data).length = data.length ∧
    ∀ i, i < data.length →
      (_bytes_to_occupancy c data).getD i 0 =
        if data.getD i 0 = c.color_unknown.value then -1
        else if data.getD i 0 = c.color_free.value then 0
        else 100 := by
  refine ⟨_bytes_to_occupancy_length c data, ?_⟩
  induction data with
  | nil => intro i hi; simp at hi
  | cons v rest ih =>
    intro i hi
    cases i with
    | zero => simp [_bytes_to_occupancy]
    | succ n =>
      simp only [_bytes_to_occupancy, List.getD_cons_succ]
      exact ih n (by simpa using hi)

/-- C4 witness: under the default configuration the pixel value 5 (equal
to neither unknown 128 nor free 1, and different from the occupied value
0) decodes to occupied `100`, and the length is preserved. -/
theorem _bytes_to_occupancy_pixelwise_witness :
    (_bytes_to_occupancy ColorConfiguration.default [5]).length = 1 ∧
    (_bytes_to_occupancy ColorConfiguration.default [5]).getD 0 0 = 100 := by
  have h := _bytes_to_occupancy_pixelwise ColorConfiguration.default [5]
  have h2 := h.2 0 (by norm_num)
  refine ⟨h.1, ?_⟩
  simpa [ColorConfiguration.default, GrayColor,
    _DEFAULT_COLOR_UNKNOWN, _DEFAULT_COLOR_FREE] using h2

/-- C5: `_occupancy_to_bytes` preserves the length and emits, per cell,
the unknown byte encoding for `-1`, the free byte encoding for `0`, and
the occupied byte encoding for any other value. -/
theorem _occupancy_to_bytes_cellwise (c : ColorConfiguration) (data : List ℤ) :
    (_occupancy_to_bytes c data).length = data.length ∧
    ∀ i, i < data.length →
      (_occupancy_to_bytes c data).getD i [] =
        if data.getD i 0 = -1 then c.color_unknown.byte_value
        else if data.getD i 0 = 0 then c.color_free.byte_value
        else c.color_occupied.byte_value := by
  refine ⟨_occupancy_to_bytes_length c data, ?_⟩
  induction data with
  | nil => intro i hi; simp at hi
  | cons v rest ih =>
    intro i hi
    cases i with
    | zero => simp [_occupancy_to_bytes]
    | succ n =>
      simp only [_occupancy_to_bytes, List.getD_cons_succ]
      exact ih n (by simpa using hi)

/-- C5 witness: under the default configuration the cells `[-1, 0, 100]`
encode to the unknown byte 128, the free byte 1 and the occupied byte 0
respectively, and the length is preserved. -/
theorem _occupancy_to_bytes_cellwise_witness :
    (_occupancy_to_bytes ColorConfiguration.default [-1, 0, 100]).length = 3 ∧
    (_occupancy_to_bytes ColorConfiguration.default [-1, 0, 100]).getD 0 [] = [128] := by
  have h := _occupancy_to_bytes_cellwise ColorConfiguration.default [-1, 0, 100]
  have h2 := h.2 0 (by norm_num)
  refine ⟨h.1, ?_⟩
  simpa [ColorConfiguration.default, GrayColor, _DEFAULT_COLOR_UNKNOWN] using h2

/-- C6: constructing a `ColorConfiguration` resolves each omitted color to
its grayscale default (occupied 0, free 1, unknown 128); construction
fails exactly when the three resolved encodings do not all share the same
format, and on success the stored colors are the resolved ones and the
stored format is the shared one. -/
theorem mkColorConfiguration_defaults_and_format :
    ∀ co cf cu : Option PixelColor,
      ((∃ e, mkColorConfiguration co cf cu = Except.error e) ↔
        ¬((co.getD (GrayColor _DEFAULT_COLOR_OCCUPIED)).format =
            (cf.getD (GrayColor _DEFAULT_COLOR_FREE)).format ∧
          (cf.getD (GrayColor _DEFAULT_COLOR_FREE)).format =
            (cu.getD (GrayColor _DEFAULT_COLOR_UNKNOWN)).format)) ∧
      ∀ cfg, mkColorConfiguration co cf cu = Except.ok cfg →
        cfg.color_occupied = co.getD (GrayColor _DEFAULT_COLOR_OCCUPIED) ∧
        cfg.color_free = cf.getD (GrayColor _DEFAULT_COLOR_FREE) ∧
        cfg.color_unknown = cu.getD (GrayColor _DEFAULT_COLOR_UNKNOWN) ∧
        cfg.format = (co.getD (GrayColor _DEFAULT_COLOR_OCCUPIED)).format := by
  intro co cf cu
  simp only [mkColorConfiguration]
  by_cases hfmt : (co.getD (GrayColor _DEFAULT_COLOR_OCCUPIED)).format =
      (cf.getD (GrayColor _DEFAULT_COLOR_FREE)).format ∧
      (cf.getD (GrayColor _DEFAULT_COLOR_FREE)).format =
      (cu.getD (GrayColor _DEFAULT_COLOR_UNKNOWN)).format
  · rw [if_pos hfmt]
    refine ⟨⟨fun ⟨e, he⟩ => by simp at he, fun hn => absurd hfmt hn⟩, ?_⟩
    intro cfg hcfg
    have := Except.ok.inj hcfg
    subst this
    exact ⟨rfl, rfl, rfl, rfl⟩
  · rw [if_neg hfmt]
    exact ⟨⟨fun _ => hfmt, fun _ => ⟨_, rfl⟩⟩, fun cfg hcfg => by simp at hcfg⟩

/-- C6 witness: mixing an RGBA occupied color with a grayscale free color
(the unknown slot defaulting to grayscale) is rejected. -/
theorem mkColorConfiguration_defaults_and_format_witness :
    ∃ e, mkColorConfiguration (some (RGBAColor 0 0 0 255)) (some (GrayColor 1)) none =
      Except.error e :=
  (mkColorConfiguration_defaults_and_format
    (some (RGBAColor 0 0 0 255)) (some (GrayColor 1)) none).1.mpr (by decide)

/-- C7: for positive resolutions and a grid with nonnegative dimensions,
the grid produced by `scale_occupancy_grid` satisfies
`len(data) = info.width * info.height`, provided the external resize
returns a raster with exactly the requested number of pixels. -/
theorem scale_occupancy_grid_data_length
    (resize : Raster → ℤ × ℤ → Raster)
    (hresize : ∀ r s, (resize r s).data.length = s.1.toNat * s.2.toNat)
    (g : OccupancyGrid) (resolution : ℚ) (copt : Option ColorConfiguration)
    (hold : 0 < g.info.resolution) (hnew : 0 < resolution)
    (hw : 0 ≤ g.info.width) (hh : 0 ≤ g.info.height) :
    ((scale_occupancy_grid resize g resolution copt).data.length : ℤ) =
      (scale_occupancy_grid resize g resolution copt).info.width *
        (scale_occupancy_grid resize g resolution copt).info.height := by
  have hnn := @_calculate_scaled_size_nonneg g.info.width g.info.height
    g.info.resolution resolution hold hnew hw hh
  simp only [scale_occupancy_grid, image_to_occupancy_grid_data,
    _make_scaled_map_metadata, _bytes_to_occupancy_length, hresize]
  push_cast [Int.toNat_of_nonneg hnn.1, Int.toNat_of_nonneg hnn.2]
  rfl

/-- C7 witness: a concrete resize collaborator (filling the requested size
with free pixels) applied to a concrete 4×4 grid at half resolution. -/
theorem scale_occupancy_grid_data_length_witness :
    ((scale_occupancy_grid
        (fun _ s => { format := "L", width := s.1, height := s.2,
                      data := List.replicate (s.1.toNat * s.2.toNat) 1 })
        { header := Header.init
          info := { map_load_time := Time.init, resolution := 1/10,
                    width := 4, height := 4, origin := Pose.init }
          data := List.replicate 16 0 }
        (1/5) none).data.length : ℤ) =
      (scale_occupancy_grid
        (fun _ s => { format := "L", width := s.1, height := s.2,
                      data := List.replicate (s.1.toNat * s.2.toNat) 1 })
        { header := Header.init
          info := { map_load_time := Time.init, resolution := 1/10,
                    width := 4, height := 4, origin := Pose.init }
          data := List.replicate 16 0 }
        (1/5) none).info.width *
      (scale_occupancy_grid
        (fun _ s => { format := "L", width := s.1, height := s.2,
                      data := List.replicate (s.1.toNat * s.2.toNat) 1 })
        { header := Header.init
          info := { map_load_time := Time.init, resolution := 1/10,
                    width := 4, height := 4, origin := Pose.init }
          data := List.replicate 16 0 }
        (1/5) none).info.height :=
  scale_occupancy_grid_data_length
    (fun _ s => { format := "L", width := s.1, height := s.2,
                  data := List.replicate (s.1.toNat * s.2.toNat) 1 })
    (fun _ _ => List.length_replicate _ _)
    { header := Header.init
      info := { map_load_time := Time.init, resolution := 1/10,
                width := 4, height := 4, origin := Pose.init }
      data := List.replicate 16 0 }
    (1/5) none (by norm_num) (by norm_num) (by norm_num) (by norm_num)

/-- C8: `compress_occupancy_grid` returns a `CompressedBitmap` whose
header is the grid's header, whose origin is the grid's `info.origin`, and
whose `resolution_x` and `resolution_y` both equal the requested
resolution (provided the external compressor only fills the payload,
leaving those fields untouched); the result is exactly the compressor's
output on the resized raster. -/
theorem compress_occupancy_grid_fields
    (resize : Raster → ℤ × ℤ → Raster)
    (fill : Raster → String → CompressedBitmap → CompressedBitmap)
    (hfill : ∀ img fmt msg,
      (fill img fmt msg).header = msg.header ∧
      (fill img fmt msg).origin = msg.origin ∧
      (fill img fmt msg).resolution_x = msg.resolution_x ∧
      (fill img fmt msg).resolution_y = msg.resolution_y)
    (g : OccupancyGrid) (resolution : ℚ) (format : String)
    (copt : Option ColorConfiguration) :
    (compress_occupancy_grid resize fill g resolution format copt).header = g.header ∧
    (compress_occupancy_grid resize fill g resolution format copt).origin = g.info.origin ∧
    (compress_occupancy_grid resize fill g resolution format copt).resolution_x = resolution ∧
    (compress_occupancy_grid resize fill g resolution format copt).resolution_y = resolution ∧
    compress_occupancy_grid resize fill g resolution format copt =
      fill (resize (occupancy_grid_to_image g copt)
          (_calculate_scaled_size (g.info.width, g.info.height)
            g.info.resolution resolution))
        format
        { CompressedBitmap.init with
          header := g.header, origin := g.info.origin,
          resolution_x := resolution, resolution_y := resolution } := by
  obtain ⟨h1, h2, h3, h4⟩ := hfill
    (resize (occupancy_grid_to_image g copt)
      (_calculate_scaled_size (g.info.width, g.info.height)
        g.info.resolution resolution))
    format
    { CompressedBitmap.init with
      header := g.header, origin := g.info.origin,
      resolution_x := resolution, resolution_y := resolution }
  exact ⟨h1, h2, h3, h4, rfl⟩

/-- C8 witness: a concrete compressor (storing the raster's pixel list as
the payload and the format tag) and a concrete resize applied to a 1×1
grid. -/
theorem compress_occupancy_grid_fields_witness :
    (compress_occupancy_grid
        (fun r _ => r)
        (fun img fmt msg => { msg with format := fmt, data := img.data })
        { header := Header.init
          info := { map_load_time := Time.init, resolution := 1,
                    width := 1, height := 1, origin := Pose.init }
          data := [0] }
        1 "png" none).header =
      ({ header := Header.init
         info := { map_load_time := Time.init, resolution := 1,
                   width := 1, height := 1, origin := Pose.init }
         data := [0] } : OccupancyGrid).header ∧
    (compress_occupancy_grid
        (fun r _ => r)
        (fun img fmt msg => { msg with format := fmt, data := img.data })
        { header := Header.init
          info := { map_load_time := Time.init, resolution := 1,
                    width := 1, height := 1, origin := Pose.init }
          data := [0] }
        1 "png" none).origin =
      ({ header := Header.init
         info := { map_load_time := Time.init, resolution := 1,
                   width := 1, height := 1, origin := Pose.init }
         data := [0] } : OccupancyGrid).info.origin ∧
    (compress_occupancy_grid
        (fun r _ => r)
        (fun img fmt msg => { msg with format := fmt, data := img.data })
        { header := Header.init
          info := { map_load_time := Time.init, resolution := 1,
                    width := 1, height := 1, origin := Pose.init }
          data := [0] }
        1 "png" none).resolution_x = 1 ∧
    (compress_occupancy_grid
        (fun r _ => r)
        (fun img fmt msg => { msg with format := fmt, data := img.data })
        { header := Header.init
          info := { map_load_time := Time.init, resolution := 1,
                    width := 1, height := 1, origin := Pose.init }
          data := [0] }
        1 "png" none).resolution_y = 1 := by
  obtain ⟨h1, h2, h3, h4, h5⟩ := compress_occupancy_grid_fields
    (fun r _ => r)
    (fun img fmt msg => { msg with format := fmt, data := img.data })
    (fun _ _ _ => ⟨rfl, rfl, rfl, rfl⟩)
    { header := Header.init
      info := { map_load_time := Time.init, resolution := 1,
                width := 1, height := 1, origin := Pose.init }
      data := [0] }
    1 "png" none
  exact ⟨h1, h2, h3, h4⟩

/-- C9: `_make_scaled_map_metadata` keeps `map_load_time` and `origin`
unchanged, sets the new resolution, and recomputes width and height with
`_calculate_scaled_size`; and `scale_occupancy_grid` carries the input
grid's header unchanged. -/
theorem make_scaled_map_metadata_preserves :
    (∀ metadata : MapMetaData, ∀ resolution : ℚ,
      (_make_scaled_map_metadata metadata resolution).map_load_time =
        metadata.map_load_time ∧
      (_make_scaled_map_metadata metadata resolution).origin = metadata.origin ∧
      (_make_scaled_map_metadata metadata resolution).resolution = resolution ∧
      ((_make_scaled_map_metadata metadata resolution).width,
        (_make_scaled_map_metadata metadata resolution).height) =
        _calculate_scaled_size (metadata.width, metadata.height)
          metadata.resolution resolution) ∧
    ∀ resize : Raster → ℤ × ℤ → Raster, ∀ g : OccupancyGrid, ∀ resolution : ℚ,
      ∀ copt : Option ColorConfiguration,
        (scale_occupancy_grid resize g resolution copt).header = g.header :=
  ⟨fun _ _ => ⟨rfl, rfl, rfl, rfl⟩, fun _ _ _ _ => rfl⟩

/-- C10: `image_to_occupancy_grid_data` yields the same cell sequence
under any two configurations, because the source rebuilds a default
`ColorConfiguration` and discards the argument; the pixels are always
classified against the default grayscale values. -/
theorem image_to_occupancy_grid_data_ignores_configuration :
    ∀ image : Raster, ∀ c1 c2 : Option ColorConfiguration,
      image_to_occupancy_grid_data image c1 = image_to_occupancy_grid_data image c2 ∧
      image_to_occupancy_grid_data image c1 =
        _bytes_to_occupancy ColorConfiguration.default image.data :=
  fun _ _ _ => ⟨rfl, rfl⟩

/-- A 1×1 grid holding a single unknown cell, used to exhibit the failing
round trip of C1. -/
def unknownCellGrid : OccupancyGrid :=
  { header := Header.init
    info := { map_load_time := Time.init, resolution := 1,
              width := 1, height := 1, origin := Pose.init }
    data := [-1] }

/-- A legal grayscale configuration whose unknown color is 5 instead of
the default 128, used to exhibit the failing round trip of C1. -/
def grayFiveConfig : ColorConfiguration :=
  { color_occupied := GrayColor 0
    color_free := GrayColor 1
    color_unknown := GrayColor 5
    format := "L" }

/-- C1 is false on the code: for the grid `[-1]` and the valid
configuration with unknown = gray 5, decoding to an image and re-encoding
yields `[100]`, not `g.data = [-1]` — `image_to_occupancy_grid_data`
rebuilds a default configuration (source line 137), so the pixel value 5
matches neither the default unknown 128 nor the default free 1 and is
classified occupied. -/
theorem roundtrip_identity_fails :
    mkColorConfiguration (some (GrayColor 0)) (some (GrayColor 1)) (some (GrayColor 5)) =
      Except.ok grayFiveConfig ∧
    unknownCellGrid.data = [-1] ∧
    image_to_occupancy_grid_data
        (occupancy_grid_to_image unknownCellGrid (some grayFiveConfig))
        (some grayFiveConfig) = [100] :=
  ⟨rfl, rfl, rfl⟩

end CompressedVisualizationTransport
